import Mathlib

/-!
Shallow embedding of the `before` crate (src/lib.rs): a family of
type-level converters used as serde field deserializers, an untagged
`OldOrNew` enum that accepts either the legacy or the current wire shape
of a field, and a transparent `Legacy` wrapper.

Rust trait bounds (`Into`, `TryInto`, `FromIterator`, `FromStr`,
`Default`, `PartialEq`, ...) are embedded by passing the trait method as
an explicit function argument; machine integers are embedded as `Nat`
with explicit `2 ^ 32` / `2 ^ 64` range conditions where the Rust code
checks them; serde decoding is embedded as functions from a JSON-like
value type into `Except String`.
-/

set_option autoImplicit false

namespace Before

/-- A self-describing structured value, as produced by serde_json:
null, booleans, (integral) numbers, strings, sequences and key/value
objects.  Numbers are `Int` since every value the crate's tests and
decoders touch is integral. -/
inductive Json where
  | null
  | bool (b : Bool)
  | num (n : Int)
  | str (s : String)
  | arr (elems : List Json)
  | obj (fields : List (String × Json))

/-- Rust `Result::unwrap_or_default`, with the default passed explicitly:
the success value on `Ok`, the default on `Err`. -/
def unwrapOr {E U : Type} (d : U) : Except E U → U
  | .ok u => u
  | .error _ => d

/-- Returns `true` exactly on `Ok`. -/
def isOkB {E A : Type} : Except E A → Bool
  | .ok _ => true
  | .error _ => false

/-! ## Converters (src/lib.rs 30-173)

Each zero-sized marker type's `Conversion::convert` becomes a function;
the trait methods its bounds provide are explicit arguments. -/

/-- Rust `Convert<T, U>::convert` (lib.rs 38-40): `val.into()`, with
`T: Into<U>` passed as `into`. -/
def Convert.convert {T U : Type} (into : T → U) (val : T) : U :=
  into val

/-- Rust `Collect<I, C>::convert` (lib.rs 51-53): `once(val).collect()`.
`C: FromIterator<I>` is passed as `fromIterator`, consuming the elements
the iterator yields, in order; `once(val)` yields exactly `[val]`. -/
def Collect.convert {I C : Type} (fromIterator : List I → C) (val : I) : C :=
  fromIterator [val]

/-- Rust `CollectDefaultKey<K, V, C>::convert` (lib.rs 65-67):
`once((K::default(), val)).collect()`, with `K: Default` passed as
`defaultK` and `C: FromIterator<(K, V)>` as `fromIterator`. -/
def CollectDefaultKey.convert {K V C : Type} (defaultK : K)
    (fromIterator : List (K × V) → C) (val : V) : C :=
  fromIterator [(defaultK, val)]

/-- Rust `TryConvert<T, U>::convert` (lib.rs 78-80): `val.try_into()`, with
`T: TryInto<U>` passed as `tryInto`. -/
def TryConvert.convert {T U E : Type} (tryInto : T → Except E U) (val : T) :
    Except E U :=
  tryInto val

/-- Rust `TryConvertOrDefault<T, U>::convert` (lib.rs 92-94):
`val.try_into().unwrap_or_default()`, with `U: Default` passed as
`defaultU`. -/
def TryConvertOrDefault.convert {T U E : Type} (tryInto : T → Except E U)
    (defaultU : U) (val : T) : U :=
  unwrapOr defaultU (tryInto val)

/-- Rust `Parse<T>::convert` (lib.rs 105-107): `val.parse()`, with
`T: FromStr` passed as `fromStr`. -/
def Parse.convert {T E : Type} (fromStr : String → Except E T) (val : String) :
    Except E T :=
  fromStr val

/-- Rust `ParseOrDefault<T>::convert` (lib.rs 118-120):
`val.parse().unwrap_or_default()`. -/
def ParseOrDefault.convert {T E : Type} (fromStr : String → Except E T)
    (defaultT : T) (val : String) : T :=
  unwrapOr defaultT (fromStr val)

/-- Rust `Compose<A, B>::convert` (lib.rs 132-134): `B::convert(A::convert(val))`,
with the two component converters passed as the functions `aConvert` and
`bConvert`. -/
def Compose.convert {T U V : Type} (aConvert : T → U) (bConvert : U → V)
    (val : T) : V :=
  bConvert (aConvert val)

/-- Rust `Identity<T>::convert` (lib.rs 142-144): returns `val` unchanged. -/
def Identity.convert {T : Type} (val : T) : T :=
  val

/-- Rust `Map<F, I, C>::convert` (lib.rs 157-159):
`val.into_iter().map(F::convert).collect()`.  The input iterator `I` is
embedded as the list of elements it yields, in order; `F::convert` is
`fConvert` and `C: FromIterator<F::Output>` is `fromIterator`. -/
def Map.convert {I O C : Type} (fConvert : I → O) (fromIterator : List O → C)
    (val : List I) : C :=
  fromIterator (val.map fConvert)

/-- Rust `ToString<T>::convert` (lib.rs 170-172): `val.to_string()`, with
`T: ToString` passed as `toStr`. -/
def ToString.convert {T : Type} (toStr : T → String) (val : T) : String :=
  toStr val

/-! ## The OldOrNew resolver (lib.rs 175-192) -/

/-- Rust `enum OldOrNew<O, N> { New(N), Old(O) }` (lib.rs 175-180), with the
variants in source declaration order: `New` first. -/
inductive OldOrNew (O N : Type) where
  | New (n : N)
  | Old (o : O)

/-- serde's `#[serde(untagged)]` decoding of `OldOrNew<O, N>`
(lib.rs 175-180): the variants are tried against the buffered input in
declaration order — `New` first, then `Old` — and the first structural
success is committed; if both fail, decoding fails with serde's
"no variant matched" error. -/
def OldOrNew.deserialize {O N : Type} (deN : Json → Except String N)
    (deO : Json → Except String O) (j : Json) : Except String (OldOrNew O N) :=
  match deN j with
  | .ok n => .ok (.New n)
  | .error _ =>
    match deO j with
    | .ok o => .ok (.Old o)
    | .error _ =>
      .error "data did not match any variant of untagged enum OldOrNew"

/-- Rust `OldOrNew::into_new` (lib.rs 183-191): `Old(old) => f(old)`,
`New(new) => new`. -/
def OldOrNew.into_new {O N : Type} (f : O → N) : OldOrNew O N → N
  | .Old old => f old
  | .New new => new

/-- Rust `Conversion::de` (lib.rs 19-27): deserialize an
`OldOrNew<Self::Input, Self::Output>` (so the new shape is decoded by the
output type's decoder `deOutput`, the old shape by the input type's
decoder `deInput`) and normalize with `into_new(Self::convert)`. -/
def Conversion.de {I O : Type} (convert : I → O)
    (deInput : Json → Except String I) (deOutput : Json → Except String O)
    (j : Json) : Except String O :=
  (OldOrNew.deserialize deOutput deInput j).map (OldOrNew.into_new convert)

/-! ## Concrete instantiations used by the crate's tests -/

/-- serde_json's `u64` decoder: accepts an integral number in
`[0, 2^64)`. -/
def deU64 : Json → Except String Nat
  | .num n => if 0 ≤ n ∧ n < 2 ^ 64 then .ok n.toNat else .error "invalid u64"
  | _ => .error "invalid type: expected u64"

/-- serde_json's `u32` decoder: accepts an integral number in
`[0, 2^32)`. -/
def deU32 : Json → Except String Nat
  | .num n => if 0 ≤ n ∧ n < 2 ^ 32 then .ok n.toNat else .error "invalid u32"
  | _ => .error "invalid type: expected u32"

/-- serde_json's `Vec<u32>` decoder: a sequence whose elements each
decode as `u32`. -/
def deVecU32 : Json → Except String (List Nat)
  | .arr elems => elems.mapM deU32
  | _ => .error "invalid type: expected a sequence"

/-- serde_json's `Vec<u32>` serializer: a sequence of numbers. -/
def serVecU32 (vals : List Nat) : Json :=
  .arr (vals.map fun n => .num (n : Int))

/-- Rust's `TryInto<u32> for u64` (`TryFromIntError` on overflow):
succeeds exactly when the value fits in 32 bits. -/
def tryU64IntoU32 (val : Nat) : Except String Nat :=
  if val < 2 ^ 32 then .ok val else
    .error "out of range integral type conversion attempted"

/-- Decimal accumulation over a digit list; `none` on the first
non-digit character. -/
def parseDecimalAux (acc : Nat) : List Char → Option Nat
  | [] => some acc
  | c :: rest =>
    if c.isDigit then parseDecimalAux (acc * 10 + (c.toNat - 48)) rest
    else none

/-- A non-empty all-digit character list read as a decimal number. -/
def parseDecimal : List Char → Option Nat
  | [] => none
  | c :: rest => parseDecimalAux 0 (c :: rest)

/-- Rust `u32::from_str`: decimal digits parsed as a number that must fit in
32 bits. -/
def u32FromStr (s : String) : Except String Nat :=
  match parseDecimal s.toList with
  | some n => if n < 2 ^ 32 then .ok n else .error "number too large"
  | none => .error "invalid digit found in string"

/-- The `simple_test` field converter (lib.rs 368):
`Compose<TryConvertOrDefault<u64, u32>, Collect<u32, Vec<u32>>>::convert`.
`u32::default()` is `0`; `Vec<u32>`'s `FromIterator` collects the
yielded elements in order, i.e. is `id` on the element list. -/
def simpleTestConvert : Nat → List Nat :=
  Compose.convert (TryConvertOrDefault.convert tryU64IntoU32 0)
    (Collect.convert id)

/-- The `simple_test` field deserializer (lib.rs 368):
`Compose<TryConvertOrDefault<u64, u32>, Collect<u32, Vec<u32>>>::de`,
whose `Input` is `u64` and `Output` is `Vec<u32>`. -/
def simpleTestFieldDe : Json → Except String (List Nat) :=
  Conversion.de simpleTestConvert deU64 deVecU32

/-- Serialization of `OldFoo { val }` (lib.rs 361-364): the object
`{"val": val}`. -/
def serOldFoo (val : Nat) : Json :=
  .obj [("val", .num (val : Int))]

/-- Deserialization of `NewFoo` (lib.rs 365-372): a struct whose single
field `vals` (with `alias = "val"`, lib.rs 369) is decoded by
`simpleTestFieldDe`. -/
def deNewFoo : Json → Except String (List Nat)
  | .obj fields =>
    match fields.find? (fun p => p.fst == "vals" || p.fst == "val") with
    | some p => simpleTestFieldDe p.snd
    | none => .error "missing field vals"
  | _ => .error "invalid type: expected struct NewFoo"

/-! ## The Legacy wrapper (lib.rs 194-357) -/

/-- Rust `struct Legacy<C, T> { pd: PhantomData<C>, new: T }` (lib.rs 194-200):
the phantom converter parameter `C` is kept as a type parameter carrying
no data. -/
structure Legacy (C : Type) (T : Type) where
  new : T

/-- Rust `From<T> for Legacy<C, T>` (lib.rs 290-297). -/
def Legacy.fromValue (C : Type) {T : Type} (new : T) : Legacy C T :=
  ⟨new⟩

/-- Rust `PartialEq for Legacy<C, T>` (lib.rs 240-247): delegates to
`T: PartialEq`, passed as `eqT`. -/
def Legacy.eq {C T : Type} (eqT : T → T → Bool) (a b : Legacy C T) : Bool :=
  eqT a.new b.new

/-- Rust `Ord for Legacy<C, T>` (lib.rs 260-267): delegates to `T: Ord`,
passed as `cmpT`. -/
def Legacy.cmp {C T : Type} (cmpT : T → T → Ordering) (a b : Legacy C T) :
    Ordering :=
  cmpT a.new b.new

/-- Rust `Hash for Legacy<C, T>` (lib.rs 269-276): feeds the wrapped value's
hash into the hasher state, `T: Hash` passed as the state transformer
`hashT`. -/
def Legacy.hash {C T H : Type} (hashT : T → H → H) (a : Legacy C T) (st : H) :
    H :=
  hashT a.new st

/-- Rust `Display for Legacy<C, T>` (lib.rs 217-224): formats the wrapped
value, `T: Display` passed as `fmtT`. -/
def Legacy.display {C T : Type} (fmtT : T → String) (a : Legacy C T) : String :=
  fmtT a.new

/-- Rust `Deref for Legacy<C, T>` (lib.rs 317-322): `&self.new`. -/
def Legacy.deref {C T : Type} (a : Legacy C T) : T :=
  a.new

/-- Rust `Deserialize for Legacy<C, T>` (lib.rs 342-357): decode
`OldOrNew<C::Input, T>` and wrap the normalized value. -/
def Legacy.deserialize (C : Type) {I T : Type} (convert : I → T)
    (deInput : Json → Except String I) (deT : Json → Except String T)
    (j : Json) : Except String (Legacy C T) :=
  (OldOrNew.deserialize deT deInput j).map fun oon =>
    Legacy.fromValue C (oon.into_new convert)

end Before

namespace Before

/-- C1: the `simple_test` scenario (lib.rs 359-377): serializing
`OldFoo { val: 5 }` gives the object `{"val": 5}`, and decoding it into
`NewFoo` — whose `vals: Vec<u32>` field uses the composed converter
`Compose<TryConvertOrDefault<u64, u32>, Collect<u32, Vec<u32>>>` with
legacy alias `val` — succeeds and yields the one-element list `[5]`. -/
theorem simple_test_decodes_old_shape :
    serOldFoo 5 = Json.obj [("val", Json.num 5)] ∧
    deNewFoo (serOldFoo 5) = Except.ok [5] := by
  constructor
  · rfl
  · rfl

/-- C2: the "-or-default" converters are total and never fail: for every
input, `TryConvertOrDefault::convert` returns the underlying fallible
conversion's success value when it succeeds and the output default when
it fails, and `ParseOrDefault::convert` returns the parsed value when
parsing succeeds and the default when it fails — in both cases a value
of the output type, never an error. -/
theorem or_default_converters_total {T U S E F : Type}
    (tryInto : T → Except E U) (defaultU : U) (x : T)
    (fromStr : String → Except F S) (defaultS : S) (s : String) :
    (∀ u, tryInto x = Except.ok u →
      TryConvertOrDefault.convert tryInto defaultU x = u) ∧
    (∀ e, tryInto x = Except.error e →
      TryConvertOrDefault.convert tryInto defaultU x = defaultU) ∧
    (∀ v, fromStr s = Except.ok v →
      ParseOrDefault.convert fromStr defaultS s = v) ∧
    (∀ e, fromStr s = Except.error e →
      ParseOrDefault.convert fromStr defaultS s = defaultS) := by
  refine ⟨fun u hu => ?_, fun e he => ?_, fun v hv => ?_, fun e he => ?_⟩ <;>
    simp [TryConvertOrDefault.convert, ParseOrDefault.convert, unwrapOr, *]

/-- Witness for C2 at the `simple_test` instantiation: `u64 → u32`
conversion of `5` succeeds with `5`, of `2^32` fails and yields the
default `0`; parsing `"5"` as `u32` yields `5`, parsing `"x"` yields the
default `0`. -/
theorem or_default_converters_total_witness :
    TryConvertOrDefault.convert tryU64IntoU32 0 5 = 5 ∧
    TryConvertOrDefault.convert tryU64IntoU32 0 (2 ^ 32) = 0 ∧
    ParseOrDefault.convert u32FromStr 0 "5" = 5 ∧
    ParseOrDefault.convert u32FromStr 0 "x" = 0 := by
  refine ⟨?_, ?_, ?_, ?_⟩
  · exact (or_default_converters_total tryU64IntoU32 0 5 u32FromStr 0 "5").1
      5 rfl
  · exact (or_default_converters_total tryU64IntoU32 0 (2 ^ 32) u32FromStr 0
      "x").2.1 "out of range integral type conversion attempted" rfl
  · exact (or_default_converters_total tryU64IntoU32 0 5 u32FromStr 0
      "5").2.2.1 5 rfl
  · exact (or_default_converters_total tryU64IntoU32 0 5 u32FromStr 0
      "x").2.2.2 "invalid digit found in string" rfl

/-- C3: normalization is exact: `into_new f` maps `Old(o)` to `f o` and
`New(n)` to `n` unchanged, and every `OldOrNew` value is exactly one of
the two variants. -/
theorem into_new_exact {O N : Type} (f : O → N) (o : O) (n : N)
    (v : OldOrNew O N) :
    OldOrNew.into_new f (OldOrNew.Old o) = f o ∧
    OldOrNew.into_new f (OldOrNew.New n) = n ∧
    ((∃ o', v = OldOrNew.Old o') ∨ (∃ n', v = OldOrNew.New n')) := by
  refine ⟨rfl, rfl, ?_⟩
  cases v with
  | New n' => exact Or.inr ⟨n', rfl⟩
  | Old o' => exact Or.inl ⟨o', rfl⟩

/-- C6: composition is exact function composition in order A then B:
`Compose<A, B>::convert(x) = B::convert(A::convert(x))`. -/
theorem compose_is_function_composition {T U V : Type} (aConvert : T → U)
    (bConvert : U → V) (x : T) :
    Compose.convert aConvert bConvert x = bConvert (aConvert x) :=
  rfl

/-- C7: `CollectDefaultKey<K, V, C>::convert` hands the collection
builder exactly the one entry `(K::default(), x)`; for a map collected
in yield order (association list) the resulting mapping therefore has
exactly one entry, keyed at the key type's default, with value `x`. -/
theorem collect_default_key_singleton {K V C : Type} (defaultK : K) (x : V)
    (fromIterator : List (K × V) → C) :
    CollectDefaultKey.convert defaultK fromIterator x =
        fromIterator [(defaultK, x)] ∧
    CollectDefaultKey.convert defaultK (id : List (K × V) → List (K × V)) x =
        [(defaultK, x)] ∧
    (CollectDefaultKey.convert defaultK (id : List (K × V) → List (K × V))
        x).length = 1 := by
  exact ⟨rfl, rfl, rfl⟩

/-- C8: `Collect<I, C>::convert` hands the collection builder exactly
the one element `x`; for a sequence collected in yield order (`Vec`) the
result is the one-element collection `[x]`. -/
theorem collect_singleton {I C : Type} (x : I) (fromIterator : List I → C) :
    Collect.convert fromIterator x = fromIterator [x] ∧
    Collect.convert (id : List I → List I) x = [x] ∧
    (Collect.convert (id : List I → List I) x).length = 1 := by
  exact ⟨rfl, rfl, rfl⟩

/-- C4: the resolver attempts the `New` variant first — whenever the
new-shape decoder accepts the input, the resolver commits to `New`
(regardless of whether the old shape would also match) — and
consequently any new-shaped encoding that its own decoder reads back
round-trips through `Conversion::de` unchanged, the converter never
being applied. -/
theorem old_or_new_tries_new_first {O N : Type}
    (deN : Json → Except String N) (deO : Json → Except String O)
    (convert : O → N) (j : Json) (n : N) (encN : N → Json) (v : N)
    (hj : deN j = Except.ok n) (hv : deN (encN v) = Except.ok v) :
    OldOrNew.deserialize deN deO j = Except.ok (OldOrNew.New n) ∧
    Conversion.de convert deO deN (encN v) = Except.ok v := by
  constructor
  · unfold OldOrNew.deserialize
    rw [hj]
  · unfold Conversion.de OldOrNew.deserialize
    rw [hv]
    rfl

/-- Witness for C4 at the `simple_test` instantiation: the JSON array
`[7]` decodes as `Vec<u32>`, so the resolver commits to `New [7]`, and
the `Vec<u32>` value `[5]` round-trips through the resolver. -/
theorem old_or_new_tries_new_first_witness :
    OldOrNew.deserialize deVecU32 deU64 (Json.arr [Json.num 7]) =
        Except.ok (OldOrNew.New [7]) ∧
    Conversion.de simpleTestConvert deU64 deVecU32 (serVecU32 [5]) =
        Except.ok [5] :=
  old_or_new_tries_new_first deVecU32 deU64 simpleTestConvert
    (Json.arr [Json.num 7]) [7] serVecU32 [5] rfl rfl

/-- C5: decoding through the resolver fails exactly when the input
conforms to neither the new nor the old declared shape; and the
converter itself never introduces a failure — an input the old-shape
decoder accepts (with the new shape failing) always decodes to the
converted value. -/
theorem de_fails_iff_neither_shape {I O : Type} (convert : I → O)
    (deInput : Json → Except String I) (deOutput : Json → Except String O)
    (j : Json) :
    (isOkB (Conversion.de convert deInput deOutput j) = false ↔
      isOkB (deOutput j) = false ∧ isOkB (deInput j) = false) ∧
    (∀ i e, deOutput j = Except.error e → deInput j = Except.ok i →
      Conversion.de convert deInput deOutput j = Except.ok (convert i)) := by
  constructor
  · unfold Conversion.de OldOrNew.deserialize
    cases hN : deOutput j <;> cases hI : deInput j <;>
      simp [isOkB, Except.map, OldOrNew.into_new]
  · intro i e hN hI
    unfold Conversion.de OldOrNew.deserialize
    rw [hN, hI]
    rfl

/-- Witness for C5 at the `simple_test` instantiation: a JSON string
matches neither `Vec<u32>` nor `u64`, so the decode fails; the scalar
`5` fails as `Vec<u32>` but decodes as old-shape `u64`, so the decode
succeeds with the converted value `[5]`. -/
theorem de_fails_iff_neither_shape_witness :
    isOkB (Conversion.de simpleTestConvert deU64 deVecU32 (Json.str "x")) =
        false ∧
    Conversion.de simpleTestConvert deU64 deVecU32 (Json.num 5) =
        Except.ok (simpleTestConvert 5) := by
  constructor
  · exact (de_fails_iff_neither_shape simpleTestConvert deU64 deVecU32
      (Json.str "x")).1.mpr ⟨rfl, rfl⟩
  · exact (de_fails_iff_neither_shape simpleTestConvert deU64 deVecU32
      (Json.num 5)).2 5 "invalid type: expected a sequence" rfl rfl

/-- C9: the `Legacy` wrapper is value-transparent: `From` then `Deref`
gives back the value unchanged, two holders of the same value are equal
(given that the wrapped type's equality is reflexive at that value, the
contract `T: Eq` promises), and equality, ordering, hashing and display
each delegate exactly to the corresponding operation on the wrapped
values. -/
theorem legacy_value_transparent {C T H : Type} (eqT : T → T → Bool)
    (cmpT : T → T → Ordering) (hashT : T → H → H) (fmtT : T → String)
    (v : T) (st : H) (a b : Legacy C T) (hrefl : eqT v v = true) :
    Legacy.eq eqT (Legacy.fromValue C v) (Legacy.fromValue C v) = true ∧
    Legacy.deref (Legacy.fromValue C v) = v ∧
    Legacy.eq eqT a b = eqT (Legacy.deref a) (Legacy.deref b) ∧
    Legacy.cmp cmpT a b = cmpT (Legacy.deref a) (Legacy.deref b) ∧
    Legacy.hash hashT a st = hashT (Legacy.deref a) st ∧
    Legacy.display fmtT a = fmtT (Legacy.deref a) :=
  ⟨hrefl, rfl, rfl, rfl, rfl, rfl⟩

/-- Witness for C9 at `T = Nat` (hasher state `Nat`, formatting via
`toString`): wrapping `5` is transparent, and the operations on two
concrete holders delegate. -/
theorem legacy_value_transparent_witness :
    Legacy.eq Nat.beq (Legacy.fromValue Unit 5) (Legacy.fromValue Unit 5) =
        true ∧
    Legacy.deref (Legacy.fromValue Unit 5) = 5 :=
  ⟨(legacy_value_transparent Nat.beq compare (fun n st => st + n)
      (fun n => toString n) 5 0 (Legacy.fromValue Unit 5)
      (Legacy.fromValue Unit 7) (by decide)).1,
   (legacy_value_transparent Nat.beq compare (fun n st => st + n)
      (fun n => toString n) 5 0 (Legacy.fromValue Unit 5)
      (Legacy.fromValue Unit 7) (by decide)).2.1⟩

/-- C10: the per-element `Map` converter preserves length and order:
collected into a sequence, the result is exactly
`[F x1, ..., F xn]` — same length as the input, and the element at every
index `i` is `F` applied to the input's element at `i`. -/
theorem map_preserves_length_and_order {I O : Type} (fConvert : I → O)
    (xs : List I) :
    Map.convert fConvert (id : List O → List O) xs = xs.map fConvert ∧
    (Map.convert fConvert (id : List O → List O) xs).length = xs.length ∧
    ∀ i : Nat, (Map.convert fConvert (id : List O → List O) xs)[i]? =
      (xs[i]?).map fConvert := by
  refine ⟨rfl, ?_, ?_⟩
  · simp [Map.convert]
  · intro i
    simp [Map.convert]

end Before
